import Mathlib

/-!
Shallow embedding of `harmony/config.py` (harmony-py).

The module defines an `Environment` enumeration, a static variant→hostname
table `HOSTNAMES`, and a `Config` class whose `__getattribute__` consults the
process environment (at the upper-cased attribute name) before ordinary
object-attribute lookup.  The two derived read-only properties
`harmony_hostname` and `edl_validation_url` go through the same interception
when their bodies read `self.environment` and `self.harmony_hostname`.

The process-wide environment-variable storage (`os.environ`) is modelled as
`EnvStore := String → Option String` and threaded explicitly through every
operation that touches it, so that frame properties (reads leave it
unchanged, construction only adds entries) are statable.
-/

set_option autoImplicit false

/-- `Environment = Enum('Environment', ['SBX', 'SIT', 'UAT', 'PROD'])`. -/
inductive Environment : Type
  | SBX
  | SIT
  | UAT
  | PROD
deriving DecidableEq

/-- The static `HOSTNAMES` table, keyed by the four `Environment` members. -/
def HOSTNAMES : Environment → String
  | .SBX => "harmony.sbx.earthdata.nasa.gov"
  | .SIT => "harmony.sit.earthdata.nasa.gov"
  | .UAT => "harmony.uat.earthdata.nasa.gov"
  | .PROD => "harmony.earthdata.nasa.gov"

/-- A Python value as it can appear in this module's attribute namespace:
a string (environment-variable values and the built-in defaults), an
`Environment` enum member (the stored `environment` attribute), or the class
defaults dict (`Config.config`). -/
inductive Value : Type
  | str (s : String)
  | envv (e : Environment)
  | dict (d : List (String × String))
deriving DecidableEq

/-- The Python exceptions reachable in this module: `AttributeError` from
`object.__getattribute__` on an absent name (caught inside
`Config.__getattribute__`), and `KeyError` from `HOSTNAMES[...]` on a key
that is not one of the four enum members (not caught anywhere). -/
inductive PyError : Type
  | attributeError
  | keyError
deriving DecidableEq

/-- Process-wide environment-variable storage (`os.environ`): a partial map
from variable names to string values. -/
def EnvStore : Type := String → Option String

/-- `os.getenv`: reads the storage at a name and does not modify it. -/
def os_getenv (env : EnvStore) (n : String) : Option String × EnvStore :=
  (env n, env)

/-- Python `str.upper` restricted to ASCII (every attribute name this module
handles is ASCII). -/
def pyUpper (s : String) : String :=
  ⟨s.data.map Char.toUpper⟩

/-- A `Config` instance: its instance dict (`self.__dict__`), mapping
attribute names to values.  Construction populates it with the defaults
table and the chosen `environment`; Python allows later writes, so the
theorems quantify over arbitrary dict contents where the claim does. -/
structure Config : Type where
  attrs : String → Option Value

/-- The class attribute `Config.config`: the built-in default settings table
(`'NUM_REQUESTS_WORKERS': '3'`, `'DOWNLOAD_CHUNK_SIZE': str(4 * 1024 * 1024)`). -/
def Config.config : List (String × String) :=
  [("NUM_REQUESTS_WORKERS", "3"),
   ("DOWNLOAD_CHUNK_SIZE", toString (4 * 1024 * 1024))]

/-- CPython `setattr` on a plain instance attribute: update the instance
dict at that name. -/
def Config.setAttr (c : Config) (n : String) (v : Value) : Config :=
  ⟨fun m => if m = n then some v else c.attrs m⟩

/-- One override-file entry applied to the storage: set the variable only if
it is not already present. -/
def setIfUnset (env : EnvStore) (kv : String × String) : EnvStore :=
  match env kv.1 with
  | some _ => env
  | none => fun m => if m = kv.1 then some kv.2 else env m

/-- Modelled from the spec: `load_dotenv` (from the external `python-dotenv`
package, not part of this repository) loads key/value pairs from an optional
local override file into the process-wide storage "without overwriting
variables already set in that storage"; "a missing file is not an error"
(no-op). -/
def load_dotenv (file : Option (List (String × String))) (env : EnvStore) : EnvStore :=
  match file with
  | none => env
  | some entries => entries.foldl setIfUnset env

/-- `Config.__init__(self, environment=Environment.UAT)`: run `load_dotenv()`,
set each default from `Config.config` on the instance, then store the chosen
`environment`.  Returns the new instance and the (possibly extended)
environment storage. -/
def Config.init (file : Option (List (String × String))) (env0 : EnvStore)
    (environment : Environment) : Config × EnvStore :=
  let env1 := load_dotenv file env0
  let c0 : Config := ⟨fun _ => none⟩
  let c1 := Config.config.foldl (fun c kv => c.setAttr kv.1 (.str kv.2)) c0
  (c1.setAttr "environment" (.envv environment), env1)

/-- `Config()` with the default argument `Environment.UAT`. -/
def Config.initDefault (file : Option (List (String × String)))
    (env0 : EnvStore) : Config × EnvStore :=
  Config.init file env0 .UAT

/-- The non-descriptor part of `object.__getattribute__(self, name)`: the
instance dict first, then the class's plain attributes (the `config` table);
an absent name raises `AttributeError`.  (Methods and attributes inherited
from `object` are outside the scope of this model.) -/
def instanceLookup (c : Config) (name : String) : Except PyError Value :=
  match c.attrs name with
  | some v => .ok v
  | none =>
    if name = "config" then .ok (.dict Config.config)
    else .error .attributeError

/-- `dict.__getitem__` on `HOSTNAMES`: the keys are exactly the four
`Environment` members, so a string value (from an environment-variable
override of `environment`), `None`, or anything else raises `KeyError`. -/
def HOSTNAMES.getitem : Option Value → Except PyError Value
  | some (.envv e) => .ok (.str (HOSTNAMES e))
  | _ => .error .keyError

/-- The body of `Config.__getattribute__` (lines 81–87): consult the
environment storage at the upper-cased name; if unset, fall back to the
given object lookup, converting `AttributeError` to `None` and letting any
other exception propagate. -/
def getattributeStep (env : EnvStore) (name : String)
    (objLookup : EnvStore → Except PyError Value × EnvStore) :
    Except PyError (Option Value) × EnvStore :=
  let g := os_getenv env (pyUpper name)
  match g.1 with
  | some v => (.ok (some (.str v)), g.2)
  | none =>
    match objLookup g.2 with
    | (.ok v, env2) => (.ok (some v), env2)
    | (.error .attributeError, env2) => (.ok none, env2)
    | (.error e, env2) => (.error e, env2)

/-- The `harmony_hostname` property getter: `return HOSTNAMES[self.environment]`.
The read `self.environment` re-enters `Config.__getattribute__` at the name
`"environment"`, whose object lookup is the plain `instanceLookup` (that name
is not a class property), so the dispatch is unfolded here. -/
def harmony_hostname_fget (env : EnvStore) (c : Config) :
    Except PyError Value × EnvStore :=
  match getattributeStep env "environment" (fun e => (instanceLookup c "environment", e)) with
  | (.error err, env1) => (.error err, env1)
  | (.ok v, env1) => (HOSTNAMES.getitem v, env1)

/-- Python `str(...)` as applied by the f-string in `edl_validation_url` to
the value read for `self.harmony_hostname`.  In this program only the `.str`
case is reachable there (the read yields an environment-variable string or
the getter's string, or propagates an exception before formatting). -/
def pyStr : Option Value → String
  | none => "None"
  | some (.str s) => s
  | some (.envv .SBX) => "Environment.SBX"
  | some (.envv .SIT) => "Environment.SIT"
  | some (.envv .UAT) => "Environment.UAT"
  | some (.envv .PROD) => "Environment.PROD"
  | some (.dict _) => "<dict>"

/-- The `edl_validation_url` property getter:
`return f'https://{self.harmony_hostname}/jobs'`, where the read
`self.harmony_hostname` re-enters `Config.__getattribute__`. -/
def edl_validation_url_fget (env : EnvStore) (c : Config) :
    Except PyError Value × EnvStore :=
  match getattributeStep env "harmony_hostname" (fun e => harmony_hostname_fget e c) with
  | (.error err, env1) => (.error err, env1)
  | (.ok v, env1) => (.ok (.str ("https://" ++ pyStr v ++ "/jobs")), env1)

/-- `object.__getattribute__(self, name)`: the class's data descriptors (the
two properties) take precedence over the instance dict, then the plain
lookup. -/
def object_getattribute (env : EnvStore) (c : Config) (name : String) :
    Except PyError Value × EnvStore :=
  if name = "harmony_hostname" then harmony_hostname_fget env c
  else if name = "edl_validation_url" then edl_validation_url_fget env c
  else (instanceLookup c name, env)

/-- `Config.__getattribute__(self, name)`: every attribute read on a
`Config` instance.  Result: the resolved value (`none` models Python
`None`), or a propagated exception; paired with the environment storage
after the read. -/
def Config.getattribute (env : EnvStore) (c : Config) (name : String) :
    Except PyError (Option Value) × EnvStore :=
  getattributeStep env name (fun e => object_getattribute e c name)

/-- The empty environment storage: no variables set. -/
def emptyEnv : EnvStore := fun _ => none

/-- An environment storage with exactly one variable set. -/
def singleEnv (k v : String) : EnvStore :=
  fun m => if m = k then some v else none

/-- A freshly constructed default instance: `Config()` with no override file
and nothing in the environment. -/
def cfgUAT : Config := (Config.initDefault none emptyEnv).1

/- ------------------------------------------------------------------ -/
/- Helper lemmas shared by the claim theorems below.                   -/
/- ------------------------------------------------------------------ -/

theorem pyUpper_environment : pyUpper "environment" = "ENVIRONMENT" := by decide

theorem pyUpper_harmony_hostname :
    pyUpper "harmony_hostname" = "HARMONY_HOSTNAME" := by decide

theorem init_attrs_environment (file : Option (List (String × String)))
    (env0 : EnvStore) (e : Environment) :
    (Config.init file env0 e).1.attrs "environment" = some (.envv e) := rfl

/-- Closed form of the `harmony_hostname` getter: an `ENVIRONMENT` override
makes the table lookup fail with `KeyError` (the key is a string, not an
enum member); otherwise the stored `environment` attribute is looked up, and
only an enum member hits the table. -/
theorem harmony_fget_eq (env : EnvStore) (c : Config) :
    harmony_hostname_fget env c =
      (match env "ENVIRONMENT", c.attrs "environment" with
       | some _, _ => .error .keyError
       | none, some (.envv e) => .ok (.str (HOSTNAMES e))
       | none, _ => .error .keyError,
       env) := by
  unfold harmony_hostname_fget getattributeStep os_getenv instanceLookup
  rw [pyUpper_environment]
  cases env "ENVIRONMENT" with
  | some v => rfl
  | none =>
    cases c.attrs "environment" with
    | none => rfl
    | some v => cases v <;> rfl

/-- Closed form of the `edl_validation_url` getter. -/
theorem edl_fget_eq (env : EnvStore) (c : Config) :
    edl_validation_url_fget env c =
      (match env "HARMONY_HOSTNAME", env "ENVIRONMENT", c.attrs "environment" with
       | some v, _, _ => .ok (.str ("https://" ++ v ++ "/jobs"))
       | none, some _, _ => .error .keyError
       | none, none, some (.envv e) =>
           .ok (.str ("https://" ++ HOSTNAMES e ++ "/jobs"))
       | none, none, _ => .error .keyError,
       env) := by
  unfold edl_validation_url_fget getattributeStep os_getenv
  rw [pyUpper_harmony_hostname]
  simp only [harmony_fget_eq]
  cases env "HARMONY_HOSTNAME" with
  | some v => rfl
  | none =>
    cases env "ENVIRONMENT" with
    | some v => rfl
    | none =>
      cases c.attrs "environment" with
      | none => rfl
      | some v => cases v <;> rfl

/-- Unfolding of `Config.__getattribute__` into its two stages. -/
theorem getattribute_unfold (env : EnvStore) (c : Config) (name : String) :
    Config.getattribute env c name =
      match env (pyUpper name) with
      | some v => (.ok (some (.str v)), env)
      | none =>
        match object_getattribute env c name with
        | (.ok v, env2) => (.ok (some v), env2)
        | (.error .attributeError, env2) => (.ok none, env2)
        | (.error e, env2) => (.error e, env2) := rfl

theorem object_getattribute_harmony (env : EnvStore) (c : Config) :
    object_getattribute env c "harmony_hostname"
      = harmony_hostname_fget env c := rfl

theorem object_getattribute_edl (env : EnvStore) (c : Config) :
    object_getattribute env c "edl_validation_url"
      = edl_validation_url_fget env c := rfl

theorem object_getattribute_other (env : EnvStore) (c : Config) (n : String)
    (h1 : n ≠ "harmony_hostname") (h2 : n ≠ "edl_validation_url") :
    object_getattribute env c n = (instanceLookup c n, env) := by
  unfold object_getattribute
  rw [if_neg h1, if_neg h2]

/- ------------------------------------------------------------------ -/
/- Claim theorems.                                                     -/
/- ------------------------------------------------------------------ -/

/-- C1: if the environment variable named by the upper-cased attribute name
is set (to any string, the empty string included), then reading that
attribute returns exactly that value — on every instance, whatever its
`Environment` or instance-dict contents, and so identically across all
instances; the `environment` field and the two derived properties are
covered because the environment check precedes every fallback. -/
theorem env_var_overrides_every_attribute (env : EnvStore) (c : Config)
    (n v : String) (h : env (pyUpper n) = some v) :
    (Config.getattribute env c n).1 = .ok (some (.str v)) := by
  rw [getattribute_unfold, h]

theorem env_var_overrides_every_attribute_witness :
    (singleEnv "NUM_REQUESTS_WORKERS" "10") (pyUpper "NUM_REQUESTS_WORKERS")
        = some "10"
    ∧ (Config.getattribute (singleEnv "NUM_REQUESTS_WORKERS" "10") cfgUAT
        "NUM_REQUESTS_WORKERS").1 = .ok (some (.str "10")) :=
  ⟨by decide,
   env_var_overrides_every_attribute _ _ _ _ (by decide)⟩

/-- C2 (counterexample): with only `ENVIRONMENT` set in the environment,
reading `harmony_hostname` on a default instance raises `KeyError` — the
property body looks up `HOSTNAMES[self.environment]`, and the intercepted
`self.environment` read returns the override string, which is not a key of
the table; `KeyError` is not caught by `Config.__getattribute__`. -/
theorem hostname_read_raises_keyError_cex :
    (Config.getattribute (singleEnv "ENVIRONMENT" "prod") cfgUAT
        "harmony_hostname").1 = .error .keyError := rfl

/-- C2 (amended): provided no environment variable named `ENVIRONMENT` is
set and the instance's stored `environment` attribute is an `Environment`
member (as construction guarantees), no attribute read raises. -/
theorem getattribute_no_error_without_ENVIRONMENT (env : EnvStore)
    (c : Config) (name : String) (err : PyError)
    (henv : env "ENVIRONMENT" = none)
    (hc : ∃ e0, c.attrs "environment" = some (Value.envv e0)) :
    (Config.getattribute env c name).1 ≠ Except.error err := by
  obtain ⟨e0, hc0⟩ := hc
  rw [getattribute_unfold]
  cases h : env (pyUpper name) with
  | some v => simp
  | none =>
    by_cases h1 : name = "harmony_hostname"
    · subst h1
      simp [object_getattribute, harmony_fget_eq, henv, hc0]
    · by_cases h2 : name = "edl_validation_url"
      · subst h2
        simp [object_getattribute, edl_fget_eq, henv, hc0]
        cases env "HARMONY_HOSTNAME" <;> simp
      · simp only [object_getattribute, h1, h2, if_false, instanceLookup]
        cases c.attrs name with
        | some v => simp
        | none =>
          by_cases h3 : name = "config" <;> simp [h3]

theorem getattribute_no_error_without_ENVIRONMENT_witness :
    emptyEnv "ENVIRONMENT" = none
    ∧ (∃ e0, cfgUAT.attrs "environment" = some (Value.envv e0))
    ∧ (Config.getattribute emptyEnv cfgUAT "harmony_hostname").1
        ≠ Except.error PyError.keyError :=
  ⟨rfl, ⟨.UAT, rfl⟩,
   getattribute_no_error_without_ENVIRONMENT emptyEnv cfgUAT
     "harmony_hostname" .keyError rfl ⟨.UAT, rfl⟩⟩

/-- C3: with neither `HARMONY_HOSTNAME` nor `ENVIRONMENT` set, reading
`harmony_hostname` on an instance constructed for any variant returns
exactly that variant's entry of the static table; the table has exactly the
four listed hostnames and its lookup is total on the variants (every enum
key yields a value, never `KeyError`). -/
theorem harmony_hostname_matches_table (e : Environment)
    (file : Option (List (String × String))) (env0 env : EnvStore)
    (hH : env "HARMONY_HOSTNAME" = none) (hE : env "ENVIRONMENT" = none) :
    (Config.getattribute env (Config.init file env0 e).1 "harmony_hostname").1
      = .ok (some (.str (HOSTNAMES e)))
    ∧ HOSTNAMES .SBX = "harmony.sbx.earthdata.nasa.gov"
    ∧ HOSTNAMES .SIT = "harmony.sit.earthdata.nasa.gov"
    ∧ HOSTNAMES .UAT = "harmony.uat.earthdata.nasa.gov"
    ∧ HOSTNAMES .PROD = "harmony.earthdata.nasa.gov"
    ∧ ∀ e2, HOSTNAMES.getitem (some (.envv e2)) = .ok (.str (HOSTNAMES e2)) := by
  refine ⟨?_, rfl, rfl, rfl, rfl, fun e2 => rfl⟩
  rw [getattribute_unfold, pyUpper_harmony_hostname, hH]
  simp [object_getattribute, harmony_fget_eq, hE, init_attrs_environment]

theorem harmony_hostname_matches_table_witness :
    emptyEnv "HARMONY_HOSTNAME" = none
    ∧ emptyEnv "ENVIRONMENT" = none
    ∧ (Config.getattribute emptyEnv (Config.init none emptyEnv .PROD).1
        "harmony_hostname").1 = .ok (some (.str (HOSTNAMES .PROD))) :=
  ⟨rfl, rfl,
   (harmony_hostname_matches_table .PROD none emptyEnv emptyEnv rfl rfl).1⟩

/-- C4: with `EDL_VALIDATION_URL`, `HARMONY_HOSTNAME` and `ENVIRONMENT` all
unset, reading `edl_validation_url` on an instance constructed for any
variant returns `https://` + that variant's table hostname + `/jobs`. -/
theorem edl_validation_url_matches_table (e : Environment)
    (file : Option (List (String × String))) (env0 env : EnvStore)
    (hU : env "EDL_VALIDATION_URL" = none)
    (hH : env "HARMONY_HOSTNAME" = none) (hE : env "ENVIRONMENT" = none) :
    (Config.getattribute env (Config.init file env0 e).1
        "edl_validation_url").1
      = .ok (some (.str ("https://" ++ HOSTNAMES e ++ "/jobs"))) := by
  rw [getattribute_unfold,
    show pyUpper "edl_validation_url" = "EDL_VALIDATION_URL" from by decide,
    hU]
  simp [object_getattribute, edl_fget_eq, hH, hE, init_attrs_environment]

theorem edl_validation_url_matches_table_witness :
    emptyEnv "EDL_VALIDATION_URL" = none
    ∧ emptyEnv "HARMONY_HOSTNAME" = none
    ∧ emptyEnv "ENVIRONMENT" = none
    ∧ (Config.getattribute emptyEnv (Config.init none emptyEnv .SBX).1
        "edl_validation_url").1
      = .ok (some (.str ("https://" ++ HOSTNAMES .SBX ++ "/jobs"))) :=
  ⟨rfl, rfl, rfl,
   edl_validation_url_matches_table .SBX none emptyEnv emptyEnv rfl rfl rfl⟩

/-- C5: an attribute name that is not one of the class's attributes
(property or defaults table), holds no instance value, and has no
environment variable at its upper-cased name, resolves to `None` rather
than raising. -/
theorem missing_attribute_resolves_to_none (env : EnvStore) (c : Config)
    (n : String)
    (h1 : env (pyUpper n) = none) (h2 : c.attrs n = none)
    (h3 : n ≠ "harmony_hostname") (h4 : n ≠ "edl_validation_url")
    (h5 : n ≠ "config") :
    (Config.getattribute env c n).1 = .ok none := by
  rw [getattribute_unfold, h1]
  simp [object_getattribute, h3, h4, instanceLookup, h2, h5]

theorem missing_attribute_resolves_to_none_witness :
    emptyEnv (pyUpper "NOT_A_REAL_SETTING") = none
    ∧ cfgUAT.attrs "NOT_A_REAL_SETTING" = none
    ∧ (Config.getattribute emptyEnv cfgUAT "NOT_A_REAL_SETTING").1
        = .ok none :=
  ⟨rfl, rfl,
   missing_attribute_resolves_to_none emptyEnv cfgUAT "NOT_A_REAL_SETTING"
     rfl rfl (by decide) (by decide) (by decide)⟩

/-- C6: `Config()` (no environment argument) stores the `UAT` variant, and
reading `environment` on it returns `UAT` when no `ENVIRONMENT` variable is
set. -/
theorem default_construction_environment_UAT
    (file : Option (List (String × String))) (env0 env : EnvStore)
    (hE : env "ENVIRONMENT" = none) :
    (Config.initDefault file env0).1.attrs "environment"
        = some (.envv .UAT)
    ∧ (Config.getattribute env (Config.initDefault file env0).1
        "environment").1 = .ok (some (.envv .UAT)) := by
  refine ⟨rfl, ?_⟩
  rw [getattribute_unfold, pyUpper_environment, hE]
  have ha : (Config.initDefault file env0).1.attrs "environment"
      = some (Value.envv .UAT) := rfl
  simp [object_getattribute, instanceLookup, ha]

theorem default_construction_environment_UAT_witness :
    emptyEnv "ENVIRONMENT" = none
    ∧ (Config.getattribute emptyEnv (Config.initDefault none emptyEnv).1
        "environment").1 = .ok (some (.envv .UAT)) :=
  ⟨rfl,
   (default_construction_environment_UAT none emptyEnv emptyEnv rfl).2⟩

/-- C7: with `NUM_REQUESTS_WORKERS` and `DOWNLOAD_CHUNK_SIZE` unset in the
environment, every freshly constructed instance resolves
`NUM_REQUESTS_WORKERS` to the string `"3"` and `DOWNLOAD_CHUNK_SIZE` to the
string `"4194304"` (`str(4 * 1024 * 1024)`). -/
theorem builtin_default_settings
    (file : Option (List (String × String))) (env0 env : EnvStore)
    (e : Environment)
    (hN : env "NUM_REQUESTS_WORKERS" = none)
    (hD : env "DOWNLOAD_CHUNK_SIZE" = none) :
    (Config.getattribute env (Config.init file env0 e).1
        "NUM_REQUESTS_WORKERS").1 = .ok (some (.str "3"))
    ∧ (Config.getattribute env (Config.init file env0 e).1
        "DOWNLOAD_CHUNK_SIZE").1 = .ok (some (.str "4194304")) := by
  constructor
  · rw [getattribute_unfold,
      show pyUpper "NUM_REQUESTS_WORKERS" = "NUM_REQUESTS_WORKERS" from
        by decide,
      hN]
    have ha : (Config.init file env0 e).1.attrs "NUM_REQUESTS_WORKERS"
        = some (Value.str "3") := rfl
    simp [object_getattribute, instanceLookup, ha]
  · rw [getattribute_unfold,
      show pyUpper "DOWNLOAD_CHUNK_SIZE" = "DOWNLOAD_CHUNK_SIZE" from
        by decide,
      hD]
    have ha : (Config.init file env0 e).1.attrs "DOWNLOAD_CHUNK_SIZE"
        = some (Value.str "4194304") := rfl
    simp [object_getattribute, instanceLookup, ha]

theorem builtin_default_settings_witness :
    emptyEnv "NUM_REQUESTS_WORKERS" = none
    ∧ emptyEnv "DOWNLOAD_CHUNK_SIZE" = none
    ∧ (Config.getattribute emptyEnv (Config.init none emptyEnv .UAT).1
        "NUM_REQUESTS_WORKERS").1 = .ok (some (.str "3")) :=
  ⟨rfl, rfl,
   (builtin_default_settings none emptyEnv emptyEnv .UAT rfl rfl).1⟩

theorem setIfUnset_preserves (env0 : EnvStore) (kv : String × String)
    (k v : String) (h : env0 k = some v) : setIfUnset env0 kv k = some v := by
  unfold setIfUnset
  cases hh : env0 kv.1 with
  | some w => exact h
  | none =>
    by_cases hk : k = kv.1
    · subst hk
      rw [h] at hh
      exact Option.noConfusion hh
    · show (if k = kv.1 then some kv.2 else env0 k) = some v
      rw [if_neg hk]
      exact h

theorem load_dotenv_preserves (entries : List (String × String))
    (env0 : EnvStore) (k v : String) (h : env0 k = some v) :
    load_dotenv (some entries) env0 k = some v := by
  unfold load_dotenv
  induction entries generalizing env0 with
  | nil => exact h
  | cons kv rest ih =>
    simp only [List.foldl]
    exact ih (setIfUnset env0 kv) (setIfUnset_preserves env0 kv k v h)

/-- C8: construction touches the environment storage only through the
override-file load, which never overwrites an already-set variable, so
every pre-existing entry survives construction unchanged; and loading with
a missing override file leaves the storage entirely unchanged (and is not
an error — the load is a total no-op). -/
theorem construction_additive_on_env
    (file : Option (List (String × String))) (env0 : EnvStore)
    (e : Environment) (k v : String) (h : env0 k = some v) :
    (Config.init file env0 e).2 k = some v
    ∧ ∀ env1 : EnvStore, load_dotenv none env1 = env1 := by
  refine ⟨?_, fun env1 => rfl⟩
  show load_dotenv file env0 k = some v
  cases file with
  | none => exact h
  | some entries => exact load_dotenv_preserves entries env0 k v h

theorem construction_additive_on_env_witness :
    (singleEnv "FOO" "bar") "FOO" = some "bar"
    ∧ (Config.init (some [("FOO", "x"), ("NEW", "y")])
        (singleEnv "FOO" "bar") .UAT).2 "FOO" = some "bar" :=
  ⟨rfl,
   (construction_additive_on_env (some [("FOO", "x"), ("NEW", "y")])
     (singleEnv "FOO" "bar") .UAT "FOO" "bar" rfl).1⟩

/-- C9 (counterexample): the two storages below agree on
`HARMONY_HOSTNAME` — the upper-casing of the requested name, unset in
both — yet reading `harmony_hostname` on the same instance yields the table
hostname under one and an uncaught `KeyError` under the other: resolution
of a property also consults the variables its body reads (`ENVIRONMENT`
here), not only the upper-cased requested name. -/
theorem hostname_read_depends_on_other_var_cex :
    emptyEnv (pyUpper "harmony_hostname")
        = (singleEnv "ENVIRONMENT" "x") (pyUpper "harmony_hostname")
    ∧ (Config.getattribute emptyEnv cfgUAT "harmony_hostname").1
        = .ok (some (.str "harmony.uat.earthdata.nasa.gov"))
    ∧ (Config.getattribute (singleEnv "ENVIRONMENT" "x") cfgUAT
        "harmony_hostname").1 = .error .keyError
    ∧ (Except.ok (some (Value.str "harmony.uat.earthdata.nasa.gov")) :
        Except PyError (Option Value)) ≠ .error .keyError :=
  ⟨by decide, rfl, rfl, fun h => Except.noConfusion h⟩

/-- C9 (amended): attribute resolution consults only upper-case-named
variables: the variable named by the upper-cased attribute name, plus — for
the two derived properties only — `ENVIRONMENT` and `HARMONY_HOSTNAME`,
which their bodies read.  Two storages agreeing on those yield identical
results for every attribute name on the same instance; in particular a
lowercase-named variable never affects any read. -/
theorem getattribute_depends_only_on_uppercase_vars
    (env env2 : EnvStore) (c : Config) (n : String)
    (h1 : env (pyUpper n) = env2 (pyUpper n))
    (h2 : env "ENVIRONMENT" = env2 "ENVIRONMENT")
    (h3 : env "HARMONY_HOSTNAME" = env2 "HARMONY_HOSTNAME") :
    (Config.getattribute env c n).1 = (Config.getattribute env2 c n).1 := by
  rw [getattribute_unfold, getattribute_unfold, h1]
  cases hv : env2 (pyUpper n) with
  | some v => rfl
  | none =>
    by_cases hn1 : n = "harmony_hostname"
    · subst hn1
      rw [object_getattribute_harmony, object_getattribute_harmony,
        harmony_fget_eq, harmony_fget_eq, h2]
      cases env2 "ENVIRONMENT" with
      | some v => rfl
      | none =>
        cases c.attrs "environment" with
        | none => rfl
        | some w => cases w <;> rfl
    · by_cases hn2 : n = "edl_validation_url"
      · subst hn2
        rw [object_getattribute_edl, object_getattribute_edl,
          edl_fget_eq, edl_fget_eq, h3, h2]
        cases env2 "HARMONY_HOSTNAME" with
        | some v => rfl
        | none =>
          cases env2 "ENVIRONMENT" with
          | some v => rfl
          | none =>
            cases c.attrs "environment" with
            | none => rfl
            | some w => cases w <;> rfl
      · rw [object_getattribute_other env c n hn1 hn2,
          object_getattribute_other env2 c n hn1 hn2]
        cases instanceLookup c n with
        | ok v => rfl
        | error err => cases err <;> rfl

theorem getattribute_depends_only_on_uppercase_vars_witness :
    emptyEnv (pyUpper "NUM_REQUESTS_WORKERS")
        = (singleEnv "foo" "1") (pyUpper "NUM_REQUESTS_WORKERS")
    ∧ emptyEnv "ENVIRONMENT" = (singleEnv "foo" "1") "ENVIRONMENT"
    ∧ emptyEnv "HARMONY_HOSTNAME" = (singleEnv "foo" "1") "HARMONY_HOSTNAME"
    ∧ (Config.getattribute emptyEnv cfgUAT "NUM_REQUESTS_WORKERS").1
        = (Config.getattribute (singleEnv "foo" "1") cfgUAT
            "NUM_REQUESTS_WORKERS").1 :=
  ⟨by decide, by decide, by decide,
   getattribute_depends_only_on_uppercase_vars emptyEnv (singleEnv "foo" "1")
     cfgUAT "NUM_REQUESTS_WORKERS" (by decide) (by decide) (by decide)⟩

theorem harmony_fget_frame (env : EnvStore) (c : Config) :
    (harmony_hostname_fget env c).2 = env := by rw [harmony_fget_eq]

theorem edl_fget_frame (env : EnvStore) (c : Config) :
    (edl_validation_url_fget env c).2 = env := by rw [edl_fget_eq]

theorem object_getattribute_frame (env : EnvStore) (c : Config) (n : String) :
    (object_getattribute env c n).2 = env := by
  unfold object_getattribute
  split
  · exact harmony_fget_frame env c
  · split
    · exact edl_fget_frame env c
    · rfl

/-- C10: an attribute read leaves the environment storage exactly as it
found it (every step of the read path only consults `os.environ`, the
instance dict and the class table, none of which it writes — in this
embedding no read-path operation even produces a new instance), so an
immediately repeated read of the same name under the resulting state
returns the same result. -/
theorem getattribute_preserves_env_and_repeatable
    (env : EnvStore) (c : Config) (n : String) :
    (Config.getattribute env c n).2 = env
    ∧ (Config.getattribute (Config.getattribute env c n).2 c n).1
        = (Config.getattribute env c n).1 := by
  have hframe : (Config.getattribute env c n).2 = env := by
    rw [getattribute_unfold]
    cases hv : env (pyUpper n) with
    | some v => rfl
    | none =>
      have hof := object_getattribute_frame env c n
      rcases hobj : object_getattribute env c n with ⟨r, env2⟩
      rw [hobj] at hof
      cases r with
      | ok v => simpa using hof
      | error err => cases err <;> simpa using hof
  exact ⟨hframe, by rw [hframe]⟩
